import Mathlib

/-!
Shallow embedding of `src/lambda-events/src/event/controltower/mod.rs`:
the AWS Control Tower lifecycle event model and its serde-derived JSON
codec (serde `Serialize`/`Deserialize` with `rename_all = "camelCase"`,
the two `#[serde(rename = ...)]` overrides, `#[serde(default)]` on the
annotated fields, and the externally tagged `ServiceEventDetails` enum,
following the `serde_json` stream deserializer that the crate's tests
invoke through `serde_json::from_slice` / `serde_json::to_string`).

JSON documents are modelled as trees (`Json`); objects are ordered
association lists, matching the ordered key/value stream a JSON text
presents to serde. `serde_json::Value` (used for the opaque
`request_parameters` / `response_elements` fields) is modelled by the
same tree type, and its deserializer accepts any tree unchanged.
-/

namespace ControlTower

/-- JSON value trees. Objects are ordered association lists, as the
serde_json stream deserializer presents them; numbers are modelled as
integers (no numeric field occurs in this event model). -/
inductive Json where
  | null : Json
  | bool (b : Bool) : Json
  | num (n : Int) : Json
  | str (s : String) : Json
  | arr (items : List Json) : Json
  | obj (entries : List (String × Json)) : Json

/-- Decode errors, abstracting the `serde_json` error codes the derived
deserializers can produce: `missingField` for "missing field",
`duplicateField` for "duplicate field", `invalidType` for
"invalid type", `unknownVariant` for "unknown variant", and
`expectedValue` for the generic syntax errors ("expected value",
"trailing characters") the stream deserializer raises around an
externally tagged enum. `ambiguousVariant` is modelled from the spec:
the spec's `DecodeError::AmbiguousVariant` kind, which has no
counterpart in the code. -/
inductive DecodeError where
  | missingField (name : String) : DecodeError
  | duplicateField (name : String) : DecodeError
  | invalidType (expected : String) : DecodeError
  | unknownVariant (name : String) : DecodeError
  | ambiguousVariant (name : String) : DecodeError
  | expectedValue : DecodeError
deriving DecidableEq

/-- User identity information for Control Tower lifecycle events. -/
structure UserIdentity where
  account_id : String
  invoked_by : Option String
deriving DecidableEq

/-- An organizational unit reference. -/
structure OrganizationalUnit where
  organizational_unit_name : String
  organizational_unit_id : String
deriving DecidableEq

/-- An account reference. -/
structure Account where
  account_name : String
  account_id : String
deriving DecidableEq

/-- A guardrail (control) reference. -/
structure Guardrail where
  guardrail_id : String
  guardrail_behavior : String
deriving DecidableEq

/-- Status for CreateManagedAccount and UpdateManagedAccount events. -/
structure ManagedAccountStatus where
  organizational_unit : OrganizationalUnit
  account : Account
  state : String
  message : String
  requested_timestamp : String
  completed_timestamp : String
deriving DecidableEq

/-- Status for EnableGuardrail and DisableGuardrail events. -/
structure GuardrailStatus where
  organizational_units : List OrganizationalUnit
  guardrails : List Guardrail
  state : String
  message : String
  request_timestamp : String
  completed_timestamp : String
deriving DecidableEq

/-- Status for SetupLandingZone and UpdateLandingZone events. -/
structure LandingZoneStatus where
  state : String
  message : String
  root_organizational_id : String
  organizational_units : List OrganizationalUnit
  accounts : List Account
  requested_timestamp : String
  completed_timestamp : String
deriving DecidableEq

/-- Status for RegisterOrganizationalUnit and DeregisterOrganizationalUnit events. -/
structure OrganizationalUnitRegistrationStatus where
  state : String
  message : String
  organizational_unit : OrganizationalUnit
  requested_timestamp : String
  completed_timestamp : String
deriving DecidableEq

/-- An organizational unit with precheck failure information. -/
structure PrecheckOrganizationalUnit where
  organizational_unit_name : String
  organizational_unit_id : String
  failed_prechecks : List String
deriving DecidableEq

/-- An account with precheck failure information. -/
structure PrecheckAccount where
  account_name : String
  account_id : String
  failed_prechecks : List String
deriving DecidableEq

/-- Status for PrecheckOrganizationalUnit events. -/
structure PrecheckOrganizationalUnitStatus where
  organizational_unit : PrecheckOrganizationalUnit
  accounts : List PrecheckAccount
  state : String
  message : String
  requested_timestamp : String
  completed_timestamp : String
deriving DecidableEq

/-- Status summary for a baseline operation. -/
structure BaselineStatusSummary where
  last_operation_identifier : String
  status : String
deriving DecidableEq

/-- An untyped baseline parameter value. -/
structure BaselineUntypedValue where
  object : String
deriving DecidableEq

/-- A parameter value wrapping an untyped object. -/
structure BaselineParameterValue where
  untyped : BaselineUntypedValue
deriving DecidableEq

/-- A baseline parameter key-value pair. -/
structure BaselineParameter where
  key : String
  value : BaselineParameterValue
deriving DecidableEq

/-- Details about an enabled baseline. -/
structure EnabledBaselineDetails where
  arn : String
  parent_identifier : String
  target_identifier : String
  baseline_identifier : String
  baseline_version : String
  status_summary : BaselineStatusSummary
  parameters : List BaselineParameter
deriving DecidableEq

/-- Status for EnableBaseline, ResetEnabledBaseline, UpdateEnabledBaseline,
and DisableBaseline events; `baseline_details` is only present in
DisableBaseline events. -/
structure BaselineStatus where
  enabled_baseline_details : EnabledBaselineDetails
  baseline_details : Option EnabledBaselineDetails
  requested_timestamp : String
  completed_timestamp : String
deriving DecidableEq

/-- The service event details: one variant per lifecycle event type,
externally tagged with the variant name in lower camel case. -/
inductive ServiceEventDetails where
  | CreateManagedAccountStatus (s : ManagedAccountStatus) : ServiceEventDetails
  | UpdateManagedAccountStatus (s : ManagedAccountStatus) : ServiceEventDetails
  | EnableGuardrailStatus (s : GuardrailStatus) : ServiceEventDetails
  | DisableGuardrailStatus (s : GuardrailStatus) : ServiceEventDetails
  | SetupLandingZoneStatus (s : LandingZoneStatus) : ServiceEventDetails
  | UpdateLandingZoneStatus (s : LandingZoneStatus) : ServiceEventDetails
  | RegisterOrganizationalUnitStatus (s : OrganizationalUnitRegistrationStatus) : ServiceEventDetails
  | DeregisterOrganizationalUnitStatus (s : OrganizationalUnitRegistrationStatus) : ServiceEventDetails
  | PrecheckOrganizationalUnitStatus (s : PrecheckOrganizationalUnitStatus) : ServiceEventDetails
  | EnableBaselineStatus (s : BaselineStatus) : ServiceEventDetails
  | ResetEnabledBaselineStatus (s : BaselineStatus) : ServiceEventDetails
  | UpdateEnabledBaselineStatus (s : BaselineStatus) : ServiceEventDetails
  | DisableBaselineStatus (s : BaselineStatus) : ServiceEventDetails
deriving DecidableEq

/-- The CloudTrail service event delivered as the EventBridge detail
payload for Control Tower lifecycle events. Optional fields hold
`Option` values; the opaque `request_parameters` / `response_elements`
hold arbitrary JSON (`serde_json::Value`). -/
structure ControlTowerLifecycleEvent where
  event_version : String
  user_identity : UserIdentity
  event_time : String
  event_source : String
  event_name : String
  aws_region : String
  source_ip_address : String
  user_agent : String
  event_id : String
  read_only : Bool
  event_type : String
  service_event_details : ServiceEventDetails
  management_event : Option Bool
  recipient_account_id : Option String
  request_parameters : Option Json
  response_elements : Option Json
  event_category : Option String

/-- Scan an object's entries for a known struct field key, embedding the
derived visitor's behavior: a second occurrence of a known field is a
"duplicate field" error, a single occurrence yields its value, and no
occurrence reports `none` (the caller then applies the missing-field /
default / `Option` policy of the field). -/
def getOnce (key : String) (os : List (String × Json)) : Except DecodeError (Option Json) :=
  match os.filter (fun e => e.1 == key) with
  | [] => .ok none
  | [e] => .ok (some e.2)
  | _ => .error (.duplicateField key)

/-- A required struct field: absent is a "missing field" error. -/
def reqF {α : Type} (key : String) (dec : Json → Except DecodeError α)
    (os : List (String × Json)) : Except DecodeError α := do
  match ← getOnce key os with
  | none => .error (.missingField key)
  | some j => dec j

/-- Decode an `Option` field's present value: JSON null is `none`,
anything else goes through the payload deserializer (serde's
`deserialize_option`). -/
def decOptVal {α : Type} (dec : Json → Except DecodeError α) :
    Json → Except DecodeError (Option α)
  | .null => .ok none
  | j => Option.some <$> dec j

/-- An `Option` struct field: absent decodes to `none` (serde's
`missing_field` succeeds for `Option` via `visit_none`), and a present
value goes through `decOptVal`. -/
def optF {α : Type} (key : String) (dec : Json → Except DecodeError α)
    (os : List (String × Json)) : Except DecodeError (Option α) := do
  match ← getOnce key os with
  | none => .ok none
  | some j => decOptVal dec j

/-- A `#[serde(default)]` field: absent decodes to the default value. -/
def defF {α : Type} (key : String) (dec : Json → Except DecodeError α) (dflt : α)
    (os : List (String × Json)) : Except DecodeError α := do
  match ← getOnce key os with
  | none => .ok dflt
  | some j => dec j

/-- String deserializer. -/
def decString : Json → Except DecodeError String
  | .str s => .ok s
  | _ => .error (.invalidType "a string")

/-- Bool deserializer. -/
def decBool : Json → Except DecodeError Bool
  | .bool b => .ok b
  | _ => .error (.invalidType "a boolean")

/-- The `serde_json::Value` deserializer accepts any JSON tree unchanged. -/
def decValue : Json → Except DecodeError Json :=
  fun j => .ok j

/-- A `Vec<T>` deserializer: a JSON array whose items all decode. -/
def decList {α : Type} (dec : Json → Except DecodeError α) :
    Json → Except DecodeError (List α)
  | .arr items => items.mapM dec
  | _ => .error (.invalidType "a sequence")

/-- Serde serializes `Option` fields without `skip_serializing_if`:
`None` becomes JSON null, `Some v` the serialization of `v`. -/
def encOpt {α : Type} (enc : α → Json) : Option α → Json
  | none => .null
  | some v => enc v

/-- Decoder for `UserIdentity` (camelCase keys, `invoked_by` optional). -/
def decodeUserIdentity : Json → Except DecodeError UserIdentity
  | .obj os => do
    let account_id ← reqF "accountId" decString os
    let invoked_by ← optF "invokedBy" decString os
    .ok { account_id, invoked_by }
  | _ => .error (.invalidType "struct UserIdentity")

/-- Encoder for `UserIdentity`. -/
def encodeUserIdentity (u : UserIdentity) : Json :=
  .obj [("accountId", .str u.account_id),
        ("invokedBy", encOpt Json.str u.invoked_by)]

/-- Decoder for `OrganizationalUnit`. -/
def decodeOrganizationalUnit : Json → Except DecodeError OrganizationalUnit
  | .obj os => do
    let organizational_unit_name ← reqF "organizationalUnitName" decString os
    let organizational_unit_id ← reqF "organizationalUnitId" decString os
    .ok { organizational_unit_name, organizational_unit_id }
  | _ => .error (.invalidType "struct OrganizationalUnit")

/-- Encoder for `OrganizationalUnit`. -/
def encodeOrganizationalUnit (u : OrganizationalUnit) : Json :=
  .obj [("organizationalUnitName", .str u.organizational_unit_name),
        ("organizationalUnitId", .str u.organizational_unit_id)]

/-- Decoder for `Account`. -/
def decodeAccount : Json → Except DecodeError Account
  | .obj os => do
    let account_name ← reqF "accountName" decString os
    let account_id ← reqF "accountId" decString os
    .ok { account_name, account_id }
  | _ => .error (.invalidType "struct Account")

/-- Encoder for `Account`. -/
def encodeAccount (a : Account) : Json :=
  .obj [("accountName", .str a.account_name),
        ("accountId", .str a.account_id)]

/-- Decoder for `Guardrail`. -/
def decodeGuardrail : Json → Except DecodeError Guardrail
  | .obj os => do
    let guardrail_id ← reqF "guardrailId" decString os
    let guardrail_behavior ← reqF "guardrailBehavior" decString os
    .ok { guardrail_id, guardrail_behavior }
  | _ => .error (.invalidType "struct Guardrail")

/-- Encoder for `Guardrail`. -/
def encodeGuardrail (g : Guardrail) : Json :=
  .obj [("guardrailId", .str g.guardrail_id),
        ("guardrailBehavior", .str g.guardrail_behavior)]

/-- Decoder for `ManagedAccountStatus`. -/
def decodeManagedAccountStatus : Json → Except DecodeError ManagedAccountStatus
  | .obj os => do
    let organizational_unit ← reqF "organizationalUnit" decodeOrganizationalUnit os
    let account ← reqF "account" decodeAccount os
    let state ← reqF "state" decString os
    let message ← reqF "message" decString os
    let requested_timestamp ← reqF "requestedTimestamp" decString os
    let completed_timestamp ← reqF "completedTimestamp" decString os
    .ok { organizational_unit, account, state, message,
          requested_timestamp, completed_timestamp }
  | _ => .error (.invalidType "struct ManagedAccountStatus")

/-- Encoder for `ManagedAccountStatus`. -/
def encodeManagedAccountStatus (m : ManagedAccountStatus) : Json :=
  .obj [("organizationalUnit", encodeOrganizationalUnit m.organizational_unit),
        ("account", encodeAccount m.account),
        ("state", .str m.state),
        ("message", .str m.message),
        ("requestedTimestamp", .str m.requested_timestamp),
        ("completedTimestamp", .str m.completed_timestamp)]

/-- Decoder for `GuardrailStatus`. The list fields carry no
`#[serde(default)]` in the source, so they are required. -/
def decodeGuardrailStatus : Json → Except DecodeError GuardrailStatus
  | .obj os => do
    let organizational_units ← reqF "organizationalUnits" (decList decodeOrganizationalUnit) os
    let guardrails ← reqF "guardrails" (decList decodeGuardrail) os
    let state ← reqF "state" decString os
    let message ← reqF "message" decString os
    let request_timestamp ← reqF "requestTimestamp" decString os
    let completed_timestamp ← reqF "completedTimestamp" decString os
    .ok { organizational_units, guardrails, state, message,
          request_timestamp, completed_timestamp }
  | _ => .error (.invalidType "struct GuardrailStatus")

/-- Encoder for `GuardrailStatus`. -/
def encodeGuardrailStatus (g : GuardrailStatus) : Json :=
  .obj [("organizationalUnits", .arr (g.organizational_units.map encodeOrganizationalUnit)),
        ("guardrails", .arr (g.guardrails.map encodeGuardrail)),
        ("state", .str g.state),
        ("message", .str g.message),
        ("requestTimestamp", .str g.request_timestamp),
        ("completedTimestamp", .str g.completed_timestamp)]

/-- Decoder for `LandingZoneStatus`. -/
def decodeLandingZoneStatus : Json → Except DecodeError LandingZoneStatus
  | .obj os => do
    let state ← reqF "state" decString os
    let message ← reqF "message" decString os
    let root_organizational_id ← reqF "rootOrganizationalId" decString os
    let organizational_units ← reqF "organizationalUnits" (decList decodeOrganizationalUnit) os
    let accounts ← reqF "accounts" (decList decodeAccount) os
    let requested_timestamp ← reqF "requestedTimestamp" decString os
    let completed_timestamp ← reqF "completedTimestamp" decString os
    .ok { state, message, root_organizational_id, organizational_units,
          accounts, requested_timestamp, completed_timestamp }
  | _ => .error (.invalidType "struct LandingZoneStatus")

/-- Encoder for `LandingZoneStatus`. -/
def encodeLandingZoneStatus (l : LandingZoneStatus) : Json :=
  .obj [("state", .str l.state),
        ("message", .str l.message),
        ("rootOrganizationalId", .str l.root_organizational_id),
        ("organizationalUnits", .arr (l.organizational_units.map encodeOrganizationalUnit)),
        ("accounts", .arr (l.accounts.map encodeAccount)),
        ("requestedTimestamp", .str l.requested_timestamp),
        ("completedTimestamp", .str l.completed_timestamp)]

/-- Decoder for `OrganizationalUnitRegistrationStatus`. -/
def decodeOrganizationalUnitRegistrationStatus :
    Json → Except DecodeError OrganizationalUnitRegistrationStatus
  | .obj os => do
    let state ← reqF "state" decString os
    let message ← reqF "message" decString os
    let organizational_unit ← reqF "organizationalUnit" decodeOrganizationalUnit os
    let requested_timestamp ← reqF "requestedTimestamp" decString os
    let completed_timestamp ← reqF "completedTimestamp" decString os
    .ok { state, message, organizational_unit,
          requested_timestamp, completed_timestamp }
  | _ => .error (.invalidType "struct OrganizationalUnitRegistrationStatus")

/-- Encoder for `OrganizationalUnitRegistrationStatus`. -/
def encodeOrganizationalUnitRegistrationStatus
    (r : OrganizationalUnitRegistrationStatus) : Json :=
  .obj [("state", .str r.state),
        ("message", .str r.message),
        ("organizationalUnit", encodeOrganizationalUnit r.organizational_unit),
        ("requestedTimestamp", .str r.requested_timestamp),
        ("completedTimestamp", .str r.completed_timestamp)]

/-- Decoder for `PrecheckOrganizationalUnit`: `failed_prechecks` carries
`#[serde(default)]`, so it defaults to the empty list when absent. -/
def decodePrecheckOrganizationalUnit : Json → Except DecodeError PrecheckOrganizationalUnit
  | .obj os => do
    let organizational_unit_name ← reqF "organizationalUnitName" decString os
    let organizational_unit_id ← reqF "organizationalUnitId" decString os
    let failed_prechecks ← defF "failedPrechecks" (decList decString) [] os
    .ok { organizational_unit_name, organizational_unit_id, failed_prechecks }
  | _ => .error (.invalidType "struct PrecheckOrganizationalUnit")

/-- Encoder for `PrecheckOrganizationalUnit`. -/
def encodePrecheckOrganizationalUnit (u : PrecheckOrganizationalUnit) : Json :=
  .obj [("organizationalUnitName", .str u.organizational_unit_name),
        ("organizationalUnitId", .str u.organizational_unit_id),
        ("failedPrechecks", .arr (u.failed_prechecks.map Json.str))]

/-- Decoder for `PrecheckAccount`: `failed_prechecks` carries
`#[serde(default)]`. -/
def decodePrecheckAccount : Json → Except DecodeError PrecheckAccount
  | .obj os => do
    let account_name ← reqF "accountName" decString os
    let account_id ← reqF "accountId" decString os
    let failed_prechecks ← defF "failedPrechecks" (decList decString) [] os
    .ok { account_name, account_id, failed_prechecks }
  | _ => .error (.invalidType "struct PrecheckAccount")

/-- Encoder for `PrecheckAccount`. -/
def encodePrecheckAccount (a : PrecheckAccount) : Json :=
  .obj [("accountName", .str a.account_name),
        ("accountId", .str a.account_id),
        ("failedPrechecks", .arr (a.failed_prechecks.map Json.str))]

/-- Decoder for `PrecheckOrganizationalUnitStatus`. -/
def decodePrecheckOrganizationalUnitStatus :
    Json → Except DecodeError PrecheckOrganizationalUnitStatus
  | .obj os => do
    let organizational_unit ← reqF "organizationalUnit" decodePrecheckOrganizationalUnit os
    let accounts ← reqF "accounts" (decList decodePrecheckAccount) os
    let state ← reqF "state" decString os
    let message ← reqF "message" decString os
    let requested_timestamp ← reqF "requestedTimestamp" decString os
    let completed_timestamp ← reqF "completedTimestamp" decString os
    .ok { organizational_unit, accounts, state, message,
          requested_timestamp, completed_timestamp }
  | _ => .error (.invalidType "struct PrecheckOrganizationalUnitStatus")

/-- Encoder for `PrecheckOrganizationalUnitStatus`. -/
def encodePrecheckOrganizationalUnitStatus (p : PrecheckOrganizationalUnitStatus) : Json :=
  .obj [("organizationalUnit", encodePrecheckOrganizationalUnit p.organizational_unit),
        ("accounts", .arr (p.accounts.map encodePrecheckAccount)),
        ("state", .str p.state),
        ("message", .str p.message),
        ("requestedTimestamp", .str p.requested_timestamp),
        ("completedTimestamp", .str p.completed_timestamp)]

/-- Decoder for `BaselineStatusSummary`. -/
def decodeBaselineStatusSummary : Json → Except DecodeError BaselineStatusSummary
  | .obj os => do
    let last_operation_identifier ← reqF "lastOperationIdentifier" decString os
    let status ← reqF "status" decString os
    .ok { last_operation_identifier, status }
  | _ => .error (.invalidType "struct BaselineStatusSummary")

/-- Encoder for `BaselineStatusSummary`. -/
def encodeBaselineStatusSummary (b : BaselineStatusSummary) : Json :=
  .obj [("lastOperationIdentifier", .str b.last_operation_identifier),
        ("status", .str b.status)]

/-- Decoder for `BaselineUntypedValue`. -/
def decodeBaselineUntypedValue : Json → Except DecodeError BaselineUntypedValue
  | .obj os => do
    let object ← reqF "object" decString os
    .ok { object }
  | _ => .error (.invalidType "struct BaselineUntypedValue")

/-- Encoder for `BaselineUntypedValue`. -/
def encodeBaselineUntypedValue (v : BaselineUntypedValue) : Json :=
  .obj [("object", .str v.object)]

/-- Decoder for `BaselineParameterValue`. -/
def decodeBaselineParameterValue : Json → Except DecodeError BaselineParameterValue
  | .obj os => do
    let untyped ← reqF "untyped" decodeBaselineUntypedValue os
    .ok { untyped }
  | _ => .error (.invalidType "struct BaselineParameterValue")

/-- Encoder for `BaselineParameterValue`. -/
def encodeBaselineParameterValue (v : BaselineParameterValue) : Json :=
  .obj [("untyped", encodeBaselineUntypedValue v.untyped)]

/-- Decoder for `BaselineParameter`. -/
def decodeBaselineParameter : Json → Except DecodeError BaselineParameter
  | .obj os => do
    let key ← reqF "key" decString os
    let value ← reqF "value" decodeBaselineParameterValue os
    .ok { key, value }
  | _ => .error (.invalidType "struct BaselineParameter")

/-- Encoder for `BaselineParameter`. -/
def encodeBaselineParameter (p : BaselineParameter) : Json :=
  .obj [("key", .str p.key),
        ("value", encodeBaselineParameterValue p.value)]

/-- Decoder for `EnabledBaselineDetails`: `parameters` carries
`#[serde(default)]`. -/
def decodeEnabledBaselineDetails : Json → Except DecodeError EnabledBaselineDetails
  | .obj os => do
    let arn ← reqF "arn" decString os
    let parent_identifier ← reqF "parentIdentifier" decString os
    let target_identifier ← reqF "targetIdentifier" decString os
    let baseline_identifier ← reqF "baselineIdentifier" decString os
    let baseline_version ← reqF "baselineVersion" decString os
    let status_summary ← reqF "statusSummary" decodeBaselineStatusSummary os
    let parameters ← defF "parameters" (decList decodeBaselineParameter) [] os
    .ok { arn, parent_identifier, target_identifier, baseline_identifier,
          baseline_version, status_summary, parameters }
  | _ => .error (.invalidType "struct EnabledBaselineDetails")

/-- Encoder for `EnabledBaselineDetails`. -/
def encodeEnabledBaselineDetails (d : EnabledBaselineDetails) : Json :=
  .obj [("arn", .str d.arn),
        ("parentIdentifier", .str d.parent_identifier),
        ("targetIdentifier", .str d.target_identifier),
        ("baselineIdentifier", .str d.baseline_identifier),
        ("baselineVersion", .str d.baseline_version),
        ("statusSummary", encodeBaselineStatusSummary d.status_summary),
        ("parameters", .arr (d.parameters.map encodeBaselineParameter))]

/-- Decoder for `BaselineStatus`: `baseline_details` is an `Option`
field with `#[serde(default)]`. -/
def decodeBaselineStatus : Json → Except DecodeError BaselineStatus
  | .obj os => do
    let enabled_baseline_details ← reqF "enabledBaselineDetails" decodeEnabledBaselineDetails os
    let baseline_details ← optF "baselineDetails" decodeEnabledBaselineDetails os
    let requested_timestamp ← reqF "requestedTimestamp" decString os
    let completed_timestamp ← reqF "completedTimestamp" decString os
    .ok { enabled_baseline_details, baseline_details,
          requested_timestamp, completed_timestamp }
  | _ => .error (.invalidType "struct BaselineStatus")

/-- Encoder for `BaselineStatus`. -/
def encodeBaselineStatus (b : BaselineStatus) : Json :=
  .obj [("enabledBaselineDetails", encodeEnabledBaselineDetails b.enabled_baseline_details),
        ("baselineDetails", encOpt encodeEnabledBaselineDetails b.baseline_details),
        ("requestedTimestamp", .str b.requested_timestamp),
        ("completedTimestamp", .str b.completed_timestamp)]

/-- The thirteen reserved discriminator keys, in declaration order:
the enum variant names under `rename_all = "camelCase"`. -/
def reservedKeys : List String :=
  ["createManagedAccountStatus", "updateManagedAccountStatus",
   "enableGuardrailStatus", "disableGuardrailStatus",
   "setupLandingZoneStatus", "updateLandingZoneStatus",
   "registerOrganizationalUnitStatus", "deregisterOrganizationalUnitStatus",
   "precheckOrganizationalUnitStatus", "enableBaselineStatus",
   "resetEnabledBaselineStatus", "updateEnabledBaselineStatus",
   "disableBaselineStatus"]

/-- Match a discriminator key against the thirteen variants and decode
the wrapped payload; an unmatched key is serde's "unknown variant"
error carrying that key. -/
def variantFor (k : String) (v : Json) : Except DecodeError ServiceEventDetails :=
  if k = "createManagedAccountStatus" then
    ServiceEventDetails.CreateManagedAccountStatus <$> decodeManagedAccountStatus v
  else if k = "updateManagedAccountStatus" then
    ServiceEventDetails.UpdateManagedAccountStatus <$> decodeManagedAccountStatus v
  else if k = "enableGuardrailStatus" then
    ServiceEventDetails.EnableGuardrailStatus <$> decodeGuardrailStatus v
  else if k = "disableGuardrailStatus" then
    ServiceEventDetails.DisableGuardrailStatus <$> decodeGuardrailStatus v
  else if k = "setupLandingZoneStatus" then
    ServiceEventDetails.SetupLandingZoneStatus <$> decodeLandingZoneStatus v
  else if k = "updateLandingZoneStatus" then
    ServiceEventDetails.UpdateLandingZoneStatus <$> decodeLandingZoneStatus v
  else if k = "registerOrganizationalUnitStatus" then
    ServiceEventDetails.RegisterOrganizationalUnitStatus <$> decodeOrganizationalUnitRegistrationStatus v
  else if k = "deregisterOrganizationalUnitStatus" then
    ServiceEventDetails.DeregisterOrganizationalUnitStatus <$> decodeOrganizationalUnitRegistrationStatus v
  else if k = "precheckOrganizationalUnitStatus" then
    ServiceEventDetails.PrecheckOrganizationalUnitStatus <$> decodePrecheckOrganizationalUnitStatus v
  else if k = "enableBaselineStatus" then
    ServiceEventDetails.EnableBaselineStatus <$> decodeBaselineStatus v
  else if k = "resetEnabledBaselineStatus" then
    ServiceEventDetails.ResetEnabledBaselineStatus <$> decodeBaselineStatus v
  else if k = "updateEnabledBaselineStatus" then
    ServiceEventDetails.UpdateEnabledBaselineStatus <$> decodeBaselineStatus v
  else if k = "disableBaselineStatus" then
    ServiceEventDetails.DisableBaselineStatus <$> decodeBaselineStatus v
  else
    .error (.unknownVariant k)

/-- Decoder for the externally tagged `ServiceEventDetails` enum,
following the serde_json stream deserializer: on an object it reads the
first key as the variant identifier (unknown key fails right there with
"unknown variant"), decodes the payload under it, and then requires the
closing brace — any further entry is a syntax error; an empty object
fails while trying to read the identifier; a string invokes the unit
variant path, which identifies the variant (or fails with "unknown
variant") and then rejects newtype variants with an invalid-type error;
anything else is an invalid-type error. -/
def decodeServiceEventDetails : Json → Except DecodeError ServiceEventDetails
  | .obj [] => .error .expectedValue
  | .obj ((k, v) :: rest) => do
    let d ← variantFor k v
    if rest.isEmpty then .ok d else .error .expectedValue
  | .str s =>
    if s ∈ reservedKeys then .error (.invalidType "newtype variant")
    else .error (.unknownVariant s)
  | _ => .error (.invalidType "enum ServiceEventDetails")

/-- Encoder for `ServiceEventDetails`: a single-entry object whose key
is the variant's camelCase name and whose value is the payload's
encoding. -/
def encodeServiceEventDetails : ServiceEventDetails → Json
  | .CreateManagedAccountStatus s =>
    .obj [("createManagedAccountStatus", encodeManagedAccountStatus s)]
  | .UpdateManagedAccountStatus s =>
    .obj [("updateManagedAccountStatus", encodeManagedAccountStatus s)]
  | .EnableGuardrailStatus s =>
    .obj [("enableGuardrailStatus", encodeGuardrailStatus s)]
  | .DisableGuardrailStatus s =>
    .obj [("disableGuardrailStatus", encodeGuardrailStatus s)]
  | .SetupLandingZoneStatus s =>
    .obj [("setupLandingZoneStatus", encodeLandingZoneStatus s)]
  | .UpdateLandingZoneStatus s =>
    .obj [("updateLandingZoneStatus", encodeLandingZoneStatus s)]
  | .RegisterOrganizationalUnitStatus s =>
    .obj [("registerOrganizationalUnitStatus", encodeOrganizationalUnitRegistrationStatus s)]
  | .DeregisterOrganizationalUnitStatus s =>
    .obj [("deregisterOrganizationalUnitStatus", encodeOrganizationalUnitRegistrationStatus s)]
  | .PrecheckOrganizationalUnitStatus s =>
    .obj [("precheckOrganizationalUnitStatus", encodePrecheckOrganizationalUnitStatus s)]
  | .EnableBaselineStatus s =>
    .obj [("enableBaselineStatus", encodeBaselineStatus s)]
  | .ResetEnabledBaselineStatus s =>
    .obj [("resetEnabledBaselineStatus", encodeBaselineStatus s)]
  | .UpdateEnabledBaselineStatus s =>
    .obj [("updateEnabledBaselineStatus", encodeBaselineStatus s)]
  | .DisableBaselineStatus s =>
    .obj [("disableBaselineStatus", encodeBaselineStatus s)]

/-- The discriminator key a variant encodes under. -/
def variantKey : ServiceEventDetails → String
  | .CreateManagedAccountStatus _ => "createManagedAccountStatus"
  | .UpdateManagedAccountStatus _ => "updateManagedAccountStatus"
  | .EnableGuardrailStatus _ => "enableGuardrailStatus"
  | .DisableGuardrailStatus _ => "disableGuardrailStatus"
  | .SetupLandingZoneStatus _ => "setupLandingZoneStatus"
  | .UpdateLandingZoneStatus _ => "updateLandingZoneStatus"
  | .RegisterOrganizationalUnitStatus _ => "registerOrganizationalUnitStatus"
  | .DeregisterOrganizationalUnitStatus _ => "deregisterOrganizationalUnitStatus"
  | .PrecheckOrganizationalUnitStatus _ => "precheckOrganizationalUnitStatus"
  | .EnableBaselineStatus _ => "enableBaselineStatus"
  | .ResetEnabledBaselineStatus _ => "resetEnabledBaselineStatus"
  | .UpdateEnabledBaselineStatus _ => "updateEnabledBaselineStatus"
  | .DisableBaselineStatus _ => "disableBaselineStatus"

/-- Decoder for the `ControlTowerLifecycleEvent` envelope, field by
field in declaration order; unknown keys are ignored (no
`deny_unknown_fields`), the five trailing fields are `Option` fields
with `#[serde(default)]`, and the two irregular keys `eventID` /
`sourceIPAddress` come from explicit `#[serde(rename = ...)]`
overrides. -/
def decodeEvent : Json → Except DecodeError ControlTowerLifecycleEvent
  | .obj os => do
    let event_version ← reqF "eventVersion" decString os
    let user_identity ← reqF "userIdentity" decodeUserIdentity os
    let event_time ← reqF "eventTime" decString os
    let event_source ← reqF "eventSource" decString os
    let event_name ← reqF "eventName" decString os
    let aws_region ← reqF "awsRegion" decString os
    let source_ip_address ← reqF "sourceIPAddress" decString os
    let user_agent ← reqF "userAgent" decString os
    let event_id ← reqF "eventID" decString os
    let read_only ← reqF "readOnly" decBool os
    let event_type ← reqF "eventType" decString os
    let service_event_details ← reqF "serviceEventDetails" decodeServiceEventDetails os
    let management_event ← optF "managementEvent" decBool os
    let recipient_account_id ← optF "recipientAccountId" decString os
    let request_parameters ← optF "requestParameters" decValue os
    let response_elements ← optF "responseElements" decValue os
    let event_category ← optF "eventCategory" decString os
    .ok { event_version, user_identity, event_time, event_source, event_name,
          aws_region, source_ip_address, user_agent, event_id, read_only,
          event_type, service_event_details, management_event,
          recipient_account_id, request_parameters, response_elements,
          event_category }
  | _ => .error (.invalidType "struct ControlTowerLifecycleEvent")

/-- Encoder for the envelope: all fields in declaration order, with the
two irregular key renames; absent optionals serialize as JSON null
(the source has no `skip_serializing_if`). -/
def encodeEvent (e : ControlTowerLifecycleEvent) : Json :=
  .obj [("eventVersion", .str e.event_version),
        ("userIdentity", encodeUserIdentity e.user_identity),
        ("eventTime", .str e.event_time),
        ("eventSource", .str e.event_source),
        ("eventName", .str e.event_name),
        ("awsRegion", .str e.aws_region),
        ("sourceIPAddress", .str e.source_ip_address),
        ("userAgent", .str e.user_agent),
        ("eventID", .str e.event_id),
        ("readOnly", .bool e.read_only),
        ("eventType", .str e.event_type),
        ("serviceEventDetails", encodeServiceEventDetails e.service_event_details),
        ("managementEvent", encOpt Json.bool e.management_event),
        ("recipientAccountId", encOpt Json.str e.recipient_account_id),
        ("requestParameters", encOpt id e.request_parameters),
        ("responseElements", encOpt id e.response_elements),
        ("eventCategory", encOpt Json.str e.event_category)]

/-- The entries of an object (empty for non-objects). -/
def Json.entries : Json → List (String × Json)
  | .obj os => os
  | _ => []

/-- The external keys the envelope encoder emits, in order. -/
def envelopeKeys : List String :=
  ["eventVersion", "userIdentity", "eventTime", "eventSource", "eventName",
   "awsRegion", "sourceIPAddress", "userAgent", "eventID", "readOnly",
   "eventType", "serviceEventDetails", "managementEvent",
   "recipientAccountId", "requestParameters", "responseElements",
   "eventCategory"]

/-- A sample organizational unit. -/
def sampleOU : OrganizationalUnit :=
  { organizational_unit_name := "SampleOU", organizational_unit_id := "ou-1234" }

/-- A sample account. -/
def sampleAccount : Account :=
  { account_name := "test-account", account_id := "123456789012" }

/-- A sample guardrail. -/
def sampleGuardrail : Guardrail :=
  { guardrail_id := "AWS-GR_AUDIT_BUCKET_PUBLIC_READ_PROHIBITED",
    guardrail_behavior := "DETECTIVE" }

/-- A sample managed account status payload. -/
def sampleMAS : ManagedAccountStatus :=
  { organizational_unit := sampleOU, account := sampleAccount,
    state := "SUCCEEDED", message := "account created",
    requested_timestamp := "2019-11-15T11:45:00+0000",
    completed_timestamp := "2019-11-16T12:09:00+0000" }

/-- A sample guardrail status payload. -/
def sampleGS : GuardrailStatus :=
  { organizational_units := [sampleOU], guardrails := [sampleGuardrail],
    state := "SUCCEEDED", message := "guardrail enabled",
    request_timestamp := "2020-01-01T00:00:00+0000",
    completed_timestamp := "2020-01-01T00:05:00+0000" }

/-- A sample baseline status summary. -/
def sampleBSS : BaselineStatusSummary :=
  { last_operation_identifier := "op-1", status := "SUCCEEDED" }

/-- A sample enabled baseline details payload (empty parameter list). -/
def sampleEBD : EnabledBaselineDetails :=
  { arn := "arn:aws:controltower:us-east-1:123456789012:enabledbaseline/XXX",
    parent_identifier := "p-1", target_identifier := "ou-1234",
    baseline_identifier := "b-1", baseline_version := "4.0",
    status_summary := sampleBSS, parameters := [] }

/-- A second enabled baseline details payload, used as the populated
`baselineDetails` value. -/
def sampleEBD2 : EnabledBaselineDetails :=
  { arn := "arn:aws:controltower:us-east-1:123456789012:enabledbaseline/YYY",
    parent_identifier := "p-2", target_identifier := "ou-5678",
    baseline_identifier := "b-2", baseline_version := "4.0",
    status_summary := sampleBSS,
    parameters := [{ key := "identityCenterEnabled",
                     value := { untyped := { object := "true" } } }] }

/-- A sample user identity. -/
def sampleUI : UserIdentity :=
  { account_id := "123456789012", invoked_by := some "AWS Internal" }

/-- A sample lifecycle event whose optional envelope attributes are all
absent. -/
def sampleEvent : ControlTowerLifecycleEvent :=
  { event_version := "1.05", user_identity := sampleUI,
    event_time := "2019-11-16T12:09:00Z",
    event_source := "controltower.amazonaws.com",
    event_name := "CreateManagedAccount", aws_region := "us-east-1",
    source_ip_address := "AWS Internal", user_agent := "AWS Internal",
    event_id := "0000000-0000-0000-1111-123456789012", read_only := false,
    event_type := "AwsServiceEvent",
    service_event_details := .CreateManagedAccountStatus sampleMAS,
    management_event := none, recipient_account_id := none,
    request_parameters := none, response_elements := none,
    event_category := none }

/-- The sample event with the opaque `requestParameters` value set to an
explicit JSON null, the shape the round trip cannot preserve. -/
def badEvent : ControlTowerLifecycleEvent :=
  { sampleEvent with request_parameters := some Json.null }

/-- A GuardrailStatus-shaped payload whose object omits the
`organizationalUnits` key (all other fields present). -/
def gsNoOUJson : Json :=
  .obj [("guardrails", .arr [encodeGuardrail sampleGuardrail]),
        ("state", .str "SUCCEEDED"), ("message", .str "guardrail enabled"),
        ("requestTimestamp", .str "2020-01-01T00:00:00+0000"),
        ("completedTimestamp", .str "2020-01-01T00:05:00+0000")]

/-- An EnabledBaselineDetails-shaped payload whose object omits the
`parameters` key. -/
def ebdNoParamsJson : Json :=
  .obj [("arn", .str "arn:aws:controltower:us-east-1:123456789012:enabledbaseline/XXX"),
        ("parentIdentifier", .str "p-1"), ("targetIdentifier", .str "ou-1234"),
        ("baselineIdentifier", .str "b-1"), ("baselineVersion", .str "4.0"),
        ("statusSummary", encodeBaselineStatusSummary sampleBSS)]

/-- A serviceEventDetails object holding both the
`enableGuardrailStatus` and `disableGuardrailStatus` keys, each with a
well-formed payload. -/
def twoKeyJson : Json :=
  .obj [("enableGuardrailStatus", encodeGuardrailStatus sampleGS),
        ("disableGuardrailStatus", encodeGuardrailStatus sampleGS)]

/-- The twelve required external keys of the envelope. -/
def requiredEnvelopeKeys : List String :=
  ["eventVersion", "userIdentity", "eventTime", "eventSource", "eventName",
   "awsRegion", "sourceIPAddress", "userAgent", "eventID", "readOnly",
   "eventType", "serviceEventDetails"]

/-- A serviceEventDetails document for the disable-baseline variant
whose payload object carries a populated `baselineDetails` entry. -/
def disableBaselineJson : Json :=
  .obj [("disableBaselineStatus",
    .obj [("enabledBaselineDetails", encodeEnabledBaselineDetails sampleEBD),
          ("baselineDetails", encodeEnabledBaselineDetails sampleEBD2),
          ("requestedTimestamp", .str "2024-01-01T00:00:00+0000"),
          ("completedTimestamp", .str "2024-01-01T00:05:00+0000")])]

/-- A serviceEventDetails document for the enable-baseline variant
whose payload object has no `baselineDetails` key. -/
def enableBaselineJson : Json :=
  .obj [("enableBaselineStatus",
    .obj [("enabledBaselineDetails", encodeEnabledBaselineDetails sampleEBD),
          ("requestedTimestamp", .str "2024-01-01T00:00:00+0000"),
          ("completedTimestamp", .str "2024-01-01T00:05:00+0000")])]

/-- A serviceEventDetails document for the enable-baseline variant
whose payload object does carry a populated `baselineDetails` entry. -/
def enableBaselineWithDetailsJson : Json :=
  .obj [("enableBaselineStatus",
    .obj [("enabledBaselineDetails", encodeEnabledBaselineDetails sampleEBD),
          ("baselineDetails", encodeEnabledBaselineDetails sampleEBD2),
          ("requestedTimestamp", .str "2024-01-01T00:00:00+0000"),
          ("completedTimestamp", .str "2024-01-01T00:05:00+0000")])]

/-- The twelve required entries of the sample event, with no optional
keys. -/
def coreEntries : List (String × Json) :=
  [("eventVersion", .str "1.05"),
   ("userIdentity", encodeUserIdentity sampleUI),
   ("eventTime", .str "2019-11-16T12:09:00Z"),
   ("eventSource", .str "controltower.amazonaws.com"),
   ("eventName", .str "CreateManagedAccount"),
   ("awsRegion", .str "us-east-1"),
   ("sourceIPAddress", .str "AWS Internal"),
   ("userAgent", .str "AWS Internal"),
   ("eventID", .str "0000000-0000-0000-1111-123456789012"),
   ("readOnly", .bool false),
   ("eventType", .str "AwsServiceEvent"),
   ("serviceEventDetails",
     encodeServiceEventDetails (.CreateManagedAccountStatus sampleMAS))]

end ControlTower

namespace ControlTower


theorem mapM_loop_map_ok {a : Type} {dec : Json → Except DecodeError a} {enc : a → Json}
    (h : ∀ x, dec (enc x) = .ok x) (l : List a) (acc : List a) :
    List.mapM.loop dec (l.map enc) acc = Except.ok (acc.reverse ++ l) := by
  induction l generalizing acc with
  | nil => simp [List.mapM.loop, pure, Except.pure]
  | cons x t ih => simp [List.mapM.loop, h, ih, bind, Except.bind]

theorem mapM_map_ok {a : Type} {dec : Json → Except DecodeError a} {enc : a → Json}
    (h : ∀ x, dec (enc x) = .ok x) (l : List a) :
    (l.map enc).mapM dec = Except.ok l := by
  rw [List.mapM, mapM_loop_map_ok h] ; rfl

theorem decOptVal_of_ne_null {a : Type} {dec : Json → Except DecodeError a}
    {j : Json} (h : j ≠ .null) : decOptVal dec j = Option.some <$> dec j := by
  cases j <;> simp_all [decOptVal]

theorem decOptVal_encOpt {a : Type} {dec : Json → Except DecodeError a} {enc : a → Json}
    (hnn : ∀ x, enc x ≠ .null) (h : ∀ x, dec (enc x) = .ok x) (o : Option a) :
    decOptVal dec (encOpt enc o) = .ok o := by
  cases o with
  | none => rfl
  | some v =>
    simp [encOpt, decOptVal_of_ne_null (hnn v), h v, Except.map]

theorem decOptVal_value {o : Option Json} (h : o ≠ some .null) :
    decOptVal decValue (encOpt id o) = .ok o := by
  cases o with
  | none => rfl
  | some v =>
    have hv : v ≠ Json.null := fun hv => h (by rw [hv])
    simp [encOpt, decOptVal_of_ne_null hv, decValue, Except.map]

theorem decOpt_string (o : Option String) :
    decOptVal decString (encOpt Json.str o) = .ok o :=
  @decOptVal_encOpt _ decString Json.str (fun s => by simp) (fun s => rfl) o

theorem decOpt_bool (o : Option Bool) :
    decOptVal decBool (encOpt Json.bool o) = .ok o :=
  @decOptVal_encOpt _ decBool Json.bool (fun b => by simp) (fun b => rfl) o

theorem decOU_enc (u : OrganizationalUnit) :
    decodeOrganizationalUnit (encodeOrganizationalUnit u) = .ok u := by
  simp [decodeOrganizationalUnit, encodeOrganizationalUnit, reqF, getOnce,
    List.filter_cons, decString, bind, Except.bind]

theorem decUI_enc (u : UserIdentity) :
    decodeUserIdentity (encodeUserIdentity u) = .ok u := by
  simp [decodeUserIdentity, encodeUserIdentity, reqF, optF, getOnce,
    List.filter_cons, decString, bind, Except.bind,
    decOpt_string]

theorem decAcc_enc (a : Account) :
    decodeAccount (encodeAccount a) = .ok a := by
  simp [decodeAccount, encodeAccount, reqF, getOnce,
    List.filter_cons, decString, bind, Except.bind]

theorem decG_enc (g : Guardrail) :
    decodeGuardrail (encodeGuardrail g) = .ok g := by
  simp [decodeGuardrail, encodeGuardrail, reqF, getOnce,
    List.filter_cons, decString, bind, Except.bind]

theorem decMAS_enc (m : ManagedAccountStatus) :
    decodeManagedAccountStatus (encodeManagedAccountStatus m) = .ok m := by
  simp [decodeManagedAccountStatus, encodeManagedAccountStatus, reqF, getOnce,
    List.filter_cons, decString, bind, Except.bind, decOU_enc, decAcc_enc]

theorem decGS_enc (g : GuardrailStatus) :
    decodeGuardrailStatus (encodeGuardrailStatus g) = .ok g := by
  simp [decodeGuardrailStatus, encodeGuardrailStatus, reqF, getOnce,
    List.filter_cons, decString, decList, bind, Except.bind,
    mapM_loop_map_ok decOU_enc, mapM_loop_map_ok decG_enc]

theorem decLZS_enc (l : LandingZoneStatus) :
    decodeLandingZoneStatus (encodeLandingZoneStatus l) = .ok l := by
  simp [decodeLandingZoneStatus, encodeLandingZoneStatus, reqF, getOnce,
    List.filter_cons, decString, decList, bind, Except.bind,
    mapM_loop_map_ok decOU_enc, mapM_loop_map_ok decAcc_enc]

theorem decOURS_enc (r : OrganizationalUnitRegistrationStatus) :
    decodeOrganizationalUnitRegistrationStatus
      (encodeOrganizationalUnitRegistrationStatus r) = .ok r := by
  simp [decodeOrganizationalUnitRegistrationStatus,
    encodeOrganizationalUnitRegistrationStatus, reqF, getOnce,
    List.filter_cons, decString, bind, Except.bind, decOU_enc]

theorem decPOU_enc (u : PrecheckOrganizationalUnit) :
    decodePrecheckOrganizationalUnit (encodePrecheckOrganizationalUnit u) = .ok u := by
  simp [decodePrecheckOrganizationalUnit, encodePrecheckOrganizationalUnit,
    reqF, defF, getOnce, List.filter_cons, decString, decList, bind, Except.bind,
    @mapM_loop_map_ok _ decString Json.str (fun s => rfl)]

theorem decPA_enc (a : PrecheckAccount) :
    decodePrecheckAccount (encodePrecheckAccount a) = .ok a := by
  simp [decodePrecheckAccount, encodePrecheckAccount,
    reqF, defF, getOnce, List.filter_cons, decString, decList, bind, Except.bind,
    @mapM_loop_map_ok _ decString Json.str (fun s => rfl)]

theorem decPOUS_enc (p : PrecheckOrganizationalUnitStatus) :
    decodePrecheckOrganizationalUnitStatus
      (encodePrecheckOrganizationalUnitStatus p) = .ok p := by
  simp [decodePrecheckOrganizationalUnitStatus, encodePrecheckOrganizationalUnitStatus,
    reqF, getOnce, List.filter_cons, decString, decList, bind, Except.bind,
    decPOU_enc, mapM_loop_map_ok decPA_enc]

theorem decBSS_enc (b : BaselineStatusSummary) :
    decodeBaselineStatusSummary (encodeBaselineStatusSummary b) = .ok b := by
  simp [decodeBaselineStatusSummary, encodeBaselineStatusSummary, reqF, getOnce,
    List.filter_cons, decString, bind, Except.bind]

theorem decBUV_enc (v : BaselineUntypedValue) :
    decodeBaselineUntypedValue (encodeBaselineUntypedValue v) = .ok v := by
  simp [decodeBaselineUntypedValue, encodeBaselineUntypedValue, reqF, getOnce,
    List.filter_cons, decString, bind, Except.bind]

theorem decBPV_enc (v : BaselineParameterValue) :
    decodeBaselineParameterValue (encodeBaselineParameterValue v) = .ok v := by
  simp [decodeBaselineParameterValue, encodeBaselineParameterValue, reqF, getOnce,
    List.filter_cons, bind, Except.bind, decBUV_enc]

theorem decBP_enc (p : BaselineParameter) :
    decodeBaselineParameter (encodeBaselineParameter p) = .ok p := by
  simp [decodeBaselineParameter, encodeBaselineParameter, reqF, getOnce,
    List.filter_cons, decString, bind, Except.bind, decBPV_enc]

theorem decEBD_enc (d : EnabledBaselineDetails) :
    decodeEnabledBaselineDetails (encodeEnabledBaselineDetails d) = .ok d := by
  simp [decodeEnabledBaselineDetails, encodeEnabledBaselineDetails, reqF, defF,
    getOnce, List.filter_cons, decString, decList, bind, Except.bind,
    decBSS_enc, mapM_loop_map_ok decBP_enc]

theorem decOpt_ebd (o : Option EnabledBaselineDetails) :
    decOptVal decodeEnabledBaselineDetails (encOpt encodeEnabledBaselineDetails o) = .ok o :=
  @decOptVal_encOpt _ decodeEnabledBaselineDetails encodeEnabledBaselineDetails
    (fun d => by simp [encodeEnabledBaselineDetails]) decEBD_enc o

theorem decBS_enc (b : BaselineStatus) :
    decodeBaselineStatus (encodeBaselineStatus b) = .ok b := by
  simp [decodeBaselineStatus, encodeBaselineStatus, reqF, optF, getOnce,
    List.filter_cons, decString, bind, Except.bind, decEBD_enc, decOpt_ebd]

theorem decSED_enc (d : ServiceEventDetails) :
    decodeServiceEventDetails (encodeServiceEventDetails d) = .ok d := by
  cases d <;>
    simp [decodeServiceEventDetails, encodeServiceEventDetails, variantFor,
      bind, Except.bind, Except.map,
      decMAS_enc, decGS_enc, decLZS_enc, decOURS_enc, decPOUS_enc, decBS_enc]

theorem decodeEvent_encodeEvent (e : ControlTowerLifecycleEvent)
    (h1 : e.request_parameters ≠ some .null)
    (h2 : e.response_elements ≠ some .null) :
    decodeEvent (encodeEvent e) = .ok e := by
  simp [decodeEvent, encodeEvent, reqF, optF, getOnce, List.filter_cons,
    decString, decBool, bind, Except.bind, decUI_enc, decSED_enc,
    decOpt_string, decOpt_bool, decOptVal_value h1, decOptVal_value h2]

/-- C1: decode-encode round trip for `LifecycleEvent` values, amended:
it holds for every event whose opaque `requestParameters` /
`responseElements` values, when present, are not the JSON null literal
(`Some(Value::Null)` encodes to the same null as `None` and decodes
back to `None`). -/
theorem claim_C1_roundtrip (e : ControlTowerLifecycleEvent)
    (h1 : e.request_parameters ≠ some .null)
    (h2 : e.response_elements ≠ some .null) :
    decodeEvent (encodeEvent e) = .ok e :=
  decodeEvent_encodeEvent e h1 h2

/-- C1 witness: the round trip evaluated at the sample event. -/
theorem claim_C1_witness :
    decodeEvent (encodeEvent sampleEvent) = .ok sampleEvent :=
  claim_C1_roundtrip sampleEvent
    (fun hc => Option.noConfusion hc) (fun hc => Option.noConfusion hc)

/-- C1 counterexample: the event carrying `requestParameters =
Some(Value::Null)` does not survive the round trip — decoding its
encoding yields the event with `requestParameters = None` instead. -/
theorem claim_C1_counterexample :
    decodeEvent (encodeEvent badEvent) ≠ Except.ok badEvent := by
  intro h
  have henc : encodeEvent badEvent = encodeEvent sampleEvent := rfl
  rw [henc, decodeEvent_encodeEvent sampleEvent
    (fun hc => Option.noConfusion hc) (fun hc => Option.noConfusion hc)] at h
  have h2 := congrArg ControlTowerLifecycleEvent.request_parameters (Except.ok.inj h)
  simp [sampleEvent, badEvent] at h2

/-- C2 amended: the serializer has no `skip_serializing_if`, so every
absent optional envelope attribute is emitted as an explicit
`key: null` entry (the key is present, with JSON null), for all five
optional envelope attributes. -/
theorem claim_C2_null_emission (e : ControlTowerLifecycleEvent) :
    (e.management_event = none →
      ("managementEvent", Json.null) ∈ (encodeEvent e).entries) ∧
    (e.recipient_account_id = none →
      ("recipientAccountId", Json.null) ∈ (encodeEvent e).entries) ∧
    (e.request_parameters = none →
      ("requestParameters", Json.null) ∈ (encodeEvent e).entries) ∧
    (e.response_elements = none →
      ("responseElements", Json.null) ∈ (encodeEvent e).entries) ∧
    (e.event_category = none →
      ("eventCategory", Json.null) ∈ (encodeEvent e).entries) := by
  refine ⟨fun h => ?_, fun h => ?_, fun h => ?_, fun h => ?_, fun h => ?_⟩ <;>
    simp [encodeEvent, Json.entries, h, encOpt]

/-- C2 witness: the sample event (absent `recipientAccountId`) encodes
with an explicit `recipientAccountId: null` entry. -/
theorem claim_C2_witness :
    ("recipientAccountId", Json.null) ∈ (encodeEvent sampleEvent).entries :=
  (claim_C2_null_emission sampleEvent).2.1 rfl

/-- C2 counterexample: encoding the sample event, whose
`recipientAccountId` is absent, produces an object that does contain
the `recipientAccountId` key (paired with JSON null), contradicting the
claimed key omission. -/
theorem claim_C2_counterexample :
    sampleEvent.recipient_account_id = none ∧
    ("recipientAccountId", Json.null) ∈ (encodeEvent sampleEvent).entries := by
  refine ⟨rfl, ?_⟩
  simp [encodeEvent, Json.entries, sampleEvent, encOpt]

/-- C3 amended: only the list fields annotated `#[serde(default)]`
(`failed_prechecks` on the two precheck types and `parameters` on
`EnabledBaselineDetails`) default to the empty list when absent; the
unannotated list fields are required, so a `GuardrailStatus` payload
omitting `organizationalUnits` fails decode with a missing-field
error instead of defaulting. -/
theorem claim_C3_default_lists :
    (∀ n i, decodePrecheckOrganizationalUnit
        (Json.obj [("organizationalUnitName", .str n),
                   ("organizationalUnitId", .str i)]) =
      .ok { organizational_unit_name := n, organizational_unit_id := i,
            failed_prechecks := [] }) ∧
    (∀ n i, decodePrecheckAccount
        (Json.obj [("accountName", .str n), ("accountId", .str i)]) =
      .ok { account_name := n, account_id := i, failed_prechecks := [] }) ∧
    decodeEnabledBaselineDetails ebdNoParamsJson = .ok sampleEBD ∧
    decodeGuardrailStatus gsNoOUJson = .error (.missingField "organizationalUnits") := by
  refine ⟨fun n i => ?_, fun n i => ?_, rfl, rfl⟩ <;>
    simp [decodePrecheckOrganizationalUnit, decodePrecheckAccount, reqF, defF,
      getOnce, List.filter_cons, decString, bind, Except.bind]

/-- C3 counterexample: decoding the GuardrailStatus-shaped payload that
omits `organizationalUnits` fails with a missing-field error rather
than yielding an empty list. -/
theorem claim_C3_counterexample :
    decodeGuardrailStatus gsNoOUJson = .error (.missingField "organizationalUnits") := rfl

/-- Decoding the two-key guardrail object stops at the trailing second
entry with the generic syntax error. -/
theorem decodeSED_twoKey :
    decodeServiceEventDetails twoKeyJson = .error .expectedValue := rfl

/-- C4 amended: a `serviceEventDetails` object with more than one entry
always fails decode (it never succeeds with either variant), but via
the stream pipeline — the first key is resolved alone and any further
entry is a generic trailing-content syntax error — not via a dedicated
`AmbiguousVariant` error kind, which the code does not have. -/
theorem claim_C4_multikey_rejected :
    (∀ (k : String) (v : Json) (e : String × Json) (rest : List (String × Json)),
      ∃ err, decodeServiceEventDetails (Json.obj ((k, v) :: e :: rest)) = .error err) ∧
    decodeServiceEventDetails twoKeyJson = .error .expectedValue := by
  refine ⟨fun k v e rest => ?_, rfl⟩
  cases h : variantFor k v with
  | error err => exact ⟨err, by simp [decodeServiceEventDetails, h, bind, Except.bind]⟩
  | ok d => exact ⟨.expectedValue, by simp [decodeServiceEventDetails, h, bind, Except.bind]⟩

/-- C4 counterexample: the object holding both guardrail discriminator
keys fails decode with the generic trailing-content error, not with an
`AmbiguousVariant` error naming either key. -/
theorem claim_C4_counterexample :
    decodeServiceEventDetails twoKeyJson = .error .expectedValue ∧
    decodeServiceEventDetails twoKeyJson ≠
      .error (.ambiguousVariant "enableGuardrailStatus") ∧
    decodeServiceEventDetails twoKeyJson ≠
      .error (.ambiguousVariant "disableGuardrailStatus") := by
  refine ⟨decodeSED_twoKey, ?_, ?_⟩ <;> intro h <;> rw [decodeSED_twoKey] at h <;>
    exact DecodeError.noConfusion (Except.error.inj h)

/-- An object whose first key is not a reserved discriminator fails
immediately with "unknown variant" carrying that key, whatever follows. -/
theorem decodeSED_unknown_first (k : String) (v : Json) (rest : List (String × Json))
    (h : k ∉ reservedKeys) :
    decodeServiceEventDetails (Json.obj ((k, v) :: rest)) = .error (.unknownVariant k) := by
  simp only [reservedKeys, List.mem_cons, List.not_mem_nil, or_false, not_or] at h
  obtain ⟨h1, h2, h3, h4, h5, h6, h7, h8, h9, h10, h11, h12, h13⟩ := h
  simp [decodeServiceEventDetails, variantFor, h1, h2, h3, h4, h5, h6, h7, h8,
    h9, h10, h11, h12, h13, bind, Except.bind]

/-- C5 amended: a `serviceEventDetails` object whose first key is not
one of the thirteen reserved discriminator names fails decode with
`UnknownVariant` carrying that key (never panicking or defaulting);
this covers every non-empty object with zero reserved keys. The empty
object, however, fails with a generic parse error while reading the
variant identifier, not with `UnknownVariant`. -/
theorem claim_C5_unknown_variant :
    (∀ (k : String) (v : Json) (rest : List (String × Json)), k ∉ reservedKeys →
      decodeServiceEventDetails (Json.obj ((k, v) :: rest)) = .error (.unknownVariant k)) ∧
    decodeServiceEventDetails (Json.obj []) = .error .expectedValue :=
  ⟨fun k v rest h => decodeSED_unknown_first k v rest h, rfl⟩

/-- C5 witness: the single-key object with the unrecognized key
`futureOperationStatus` fails with `UnknownVariant` carrying it. -/
theorem claim_C5_witness :
    decodeServiceEventDetails (Json.obj [("futureOperationStatus", .obj [])]) =
      .error (.unknownVariant "futureOperationStatus") :=
  claim_C5_unknown_variant.1 "futureOperationStatus" (.obj []) [] (by decide)

/-- C5 counterexample: a `serviceEventDetails` object with zero keys
fails with the generic parse error, not with any `UnknownVariant`. -/
theorem claim_C5_counterexample :
    decodeServiceEventDetails (Json.obj []) = .error .expectedValue ∧
    decodeServiceEventDetails (Json.obj []) ≠ .error (.unknownVariant "") := by
  refine ⟨rfl, fun h => ?_⟩
  rw [show decodeServiceEventDetails (Json.obj []) = Except.error DecodeError.expectedValue from rfl] at h
  exact DecodeError.noConfusion (Except.error.inj h)

/-- C6: decoding a `serviceEventDetails` object keyed
`createManagedAccountStatus` yields the `CreateManagedAccountStatus`
union tag, and every variant encodes to a single-entry object whose
only key is the variant name in lower camel case. -/
theorem claim_C6_variant_fidelity :
    (∀ (v : Json) (d : ServiceEventDetails),
      decodeServiceEventDetails (Json.obj [("createManagedAccountStatus", v)]) = .ok d →
      ∃ s, d = .CreateManagedAccountStatus s) ∧
    (∀ d : ServiceEventDetails,
      ∃ v, encodeServiceEventDetails d = Json.obj [(variantKey d, v)]) ∧
    decodeServiceEventDetails (Json.obj [("createManagedAccountStatus",
      encodeManagedAccountStatus sampleMAS)]) =
      .ok (.CreateManagedAccountStatus sampleMAS) := by
  refine ⟨fun v d h => ?_, fun d => ?_, ?_⟩
  · cases hm : decodeManagedAccountStatus v with
    | error e =>
      simp [decodeServiceEventDetails, variantFor, hm, bind, Except.bind, Except.map] at h
    | ok s =>
      simp [decodeServiceEventDetails, variantFor, hm, bind, Except.bind, Except.map] at h
      exact ⟨s, h.symm⟩
  · cases d <;> exact ⟨_, rfl⟩
  · exact decSED_enc (.CreateManagedAccountStatus sampleMAS)

/-- C6 witness: the variant-fidelity implication applied to the encoded
sample payload. -/
theorem claim_C6_witness :
    ∃ s, ServiceEventDetails.CreateManagedAccountStatus sampleMAS =
      .CreateManagedAccountStatus s :=
  claim_C6_variant_fidelity.1 (encodeManagedAccountStatus sampleMAS)
    (.CreateManagedAccountStatus sampleMAS)
    (decSED_enc (.CreateManagedAccountStatus sampleMAS))

/-- Splitting a successful `Except` bind. -/
theorem bind_ok {a b : Type} {x : Except DecodeError a} {f : a → Except DecodeError b}
    {r : b} (h : x >>= f = .ok r) : ∃ v, x = .ok v ∧ f v = .ok r := by
  cases x with
  | error e => simp [bind, Except.bind] at h
  | ok v => exact ⟨v, rfl, by simpa [bind, Except.bind] using h⟩

/-- A field scan that found a value proves its key occurs in the object. -/
theorem getOnce_some_mem {key : String} {os : List (String × Json)} {j : Json}
    (h : getOnce key os = .ok (some j)) : key ∈ os.map Prod.fst := by
  unfold getOnce at h
  cases hf : os.filter (fun e => e.1 == key) with
  | nil => rw [hf] at h; exact Option.noConfusion (Except.ok.inj h)
  | cons a t =>
    have ha : a ∈ os.filter (fun e => e.1 == key) := by rw [hf]; exact List.mem_cons_self a t
    have := List.mem_filter.mp ha
    exact List.mem_map.mpr ⟨a, this.1, beq_iff_eq.mp this.2⟩

/-- A successful required field proves its key occurs in the object. -/
theorem reqF_ok_mem {a : Type} {key : String} {dec : Json → Except DecodeError a}
    {os : List (String × Json)} {x : a} (h : reqF key dec os = .ok x) :
    key ∈ os.map Prod.fst := by
  unfold reqF at h
  obtain ⟨v, hv, hf⟩ := bind_ok h
  cases v with
  | none => simp at hf
  | some j => exact getOnce_some_mem hv

/-- A successful envelope decode proves every required key occurs in
the input object. -/
theorem decodeEvent_ok_required {os : List (String × Json)}
    {x : ControlTowerLifecycleEvent} (h : decodeEvent (Json.obj os) = .ok x) :
    ∀ k ∈ requiredEnvelopeKeys, k ∈ os.map Prod.fst := by
  unfold decodeEvent at h
  obtain ⟨v1, h1, h⟩ := bind_ok h
  obtain ⟨v2, h2, h⟩ := bind_ok h
  obtain ⟨v3, h3, h⟩ := bind_ok h
  obtain ⟨v4, h4, h⟩ := bind_ok h
  obtain ⟨v5, h5, h⟩ := bind_ok h
  obtain ⟨v6, h6, h⟩ := bind_ok h
  obtain ⟨v7, h7, h⟩ := bind_ok h
  obtain ⟨v8, h8, h⟩ := bind_ok h
  obtain ⟨v9, h9, h⟩ := bind_ok h
  obtain ⟨v10, h10, h⟩ := bind_ok h
  obtain ⟨v11, h11, h⟩ := bind_ok h
  obtain ⟨v12, h12, h⟩ := bind_ok h
  intro k hk
  simp only [requiredEnvelopeKeys, List.mem_cons, List.not_mem_nil, or_false] at hk
  rcases hk with rfl | rfl | rfl | rfl | rfl | rfl | rfl | rfl | rfl | rfl | rfl | rfl
  · exact reqF_ok_mem h1
  · exact reqF_ok_mem h2
  · exact reqF_ok_mem h3
  · exact reqF_ok_mem h4
  · exact reqF_ok_mem h5
  · exact reqF_ok_mem h6
  · exact reqF_ok_mem h7
  · exact reqF_ok_mem h8
  · exact reqF_ok_mem h9
  · exact reqF_ok_mem h10
  · exact reqF_ok_mem h11
  · exact reqF_ok_mem h12

/-- C7: the envelope's external keys — encoding always emits exactly
the fixed key list (camelCase names with the two hard-coded irregular
keys `eventID` and `sourceIPAddress`), the event id and source IP
fields are emitted under precisely those irregular keys, and a
successful decode requires every required key to be present verbatim in
the input. -/
theorem claim_C7_key_mapping :
    (∀ e : ControlTowerLifecycleEvent,
      (encodeEvent e).entries.map Prod.fst = envelopeKeys) ∧
    (∀ e : ControlTowerLifecycleEvent,
      ("eventID", Json.str e.event_id) ∈ (encodeEvent e).entries ∧
      ("sourceIPAddress", Json.str e.source_ip_address) ∈ (encodeEvent e).entries) ∧
    (∀ (os : List (String × Json)) (x : ControlTowerLifecycleEvent),
      decodeEvent (Json.obj os) = .ok x →
      ∀ k ∈ requiredEnvelopeKeys, k ∈ os.map Prod.fst) := by
  refine ⟨fun e => rfl, fun e => ⟨?_, ?_⟩, fun os x h => decodeEvent_ok_required h⟩ <;>
    simp [encodeEvent, Json.entries]

/-- C7 witness: on the sample event's own encoding, decode succeeds, so
the irregular key `eventID` is indeed among the input keys. -/
theorem claim_C7_witness :
    "eventID" ∈ ((encodeEvent sampleEvent).entries.map Prod.fst) :=
  claim_C7_key_mapping.2.2 (encodeEvent sampleEvent).entries sampleEvent
    (decodeEvent_encodeEvent sampleEvent
      (fun hc => Option.noConfusion hc) (fun hc => Option.noConfusion hc))
    "eventID" (by decide)

/-- C8: the disable-baseline payload with a populated `baselineDetails`
object and the enable-baseline payload lacking that key both decode;
the first yields `baseline_details = some`, the second `none`, and the
presence is taken from the data, not the variant — an enable-baseline
payload carrying the key also decodes with `some`. -/
theorem claim_C8_baseline_optionality :
    decodeServiceEventDetails disableBaselineJson =
      .ok (.DisableBaselineStatus
        { enabled_baseline_details := sampleEBD,
          baseline_details := some sampleEBD2,
          requested_timestamp := "2024-01-01T00:00:00+0000",
          completed_timestamp := "2024-01-01T00:05:00+0000" }) ∧
    decodeServiceEventDetails enableBaselineJson =
      .ok (.EnableBaselineStatus
        { enabled_baseline_details := sampleEBD,
          baseline_details := none,
          requested_timestamp := "2024-01-01T00:00:00+0000",
          completed_timestamp := "2024-01-01T00:05:00+0000" }) ∧
    decodeServiceEventDetails enableBaselineWithDetailsJson =
      .ok (.EnableBaselineStatus
        { enabled_baseline_details := sampleEBD,
          baseline_details := some sampleEBD2,
          requested_timestamp := "2024-01-01T00:00:00+0000",
          completed_timestamp := "2024-01-01T00:05:00+0000" }) :=
  ⟨rfl, rfl, rfl⟩

/-- Appending an entry with a different key does not change a field
scan. -/
theorem getOnce_append_ne {k key : String} (hne : k ≠ key) (v : Json)
    (os : List (String × Json)) :
    getOnce key (os ++ [(k, v)]) = getOnce key os := by
  simp [getOnce, List.filter_append, List.filter_cons, hne]

/-- Scanning for a key that occurs nowhere filters to nothing. -/
theorem filter_key_nil {key : String} {os : List (String × Json)}
    (h : key ∉ os.map Prod.fst) : os.filter (fun e => e.1 == key) = [] := by
  induction os with
  | nil => rfl
  | cons a t ih =>
    simp only [List.map_cons, List.mem_cons, not_or] at h
    have h1 : ¬a.1 = key := fun hk => h.1 hk.symm
    simp [List.filter_cons, h1, ih h.2]

/-- A key that occurs nowhere scans to "absent". -/
theorem getOnce_not_mem {key : String} {os : List (String × Json)}
    (h : key ∉ os.map Prod.fst) : getOnce key os = .ok none := by
  simp [getOnce, filter_key_nil h]

/-- Appending an entry for a key that occurs nowhere else scans to that
single value. -/
theorem getOnce_append_self {key : String} {os : List (String × Json)}
    (h : key ∉ os.map Prod.fst) (v : Json) :
    getOnce key (os ++ [(key, v)]) = .ok (some v) := by
  simp [getOnce, List.filter_append, List.filter_cons, filter_key_nil h]

/-- An extra entry under a key outside the envelope's field set leaves
the envelope decode unchanged. -/
theorem decodeEvent_ignores_unknown (os : List (String × Json)) (k : String) (v : Json)
    (h : k ∉ envelopeKeys) :
    decodeEvent (Json.obj (os ++ [(k, v)])) = decodeEvent (Json.obj os) := by
  simp only [envelopeKeys, List.mem_cons, List.not_mem_nil, or_false, not_or] at h
  obtain ⟨e1, e2, e3, e4, e5, e6, e7, e8, e9, e10, e11, e12, e13, e14, e15, e16, e17⟩ := h
  simp only [decodeEvent, reqF, optF, getOnce_append_ne e1 v os, getOnce_append_ne e2 v os, getOnce_append_ne e3 v os, getOnce_append_ne e4 v os, getOnce_append_ne e5 v os, getOnce_append_ne e6 v os, getOnce_append_ne e7 v os, getOnce_append_ne e8 v os, getOnce_append_ne e9 v os, getOnce_append_ne e10 v os, getOnce_append_ne e11 v os, getOnce_append_ne e12 v os, getOnce_append_ne e13 v os, getOnce_append_ne e14 v os, getOnce_append_ne e15 v os, getOnce_append_ne e16 v os, getOnce_append_ne e17 v os]

/-- An extra entry under a key outside `OrganizationalUnit`'s field set
leaves its decode unchanged. -/
theorem decodeOU_ignores_unknown (os : List (String × Json)) (k : String) (v : Json)
    (h : k ∉ ["organizationalUnitName", "organizationalUnitId"]) :
    decodeOrganizationalUnit (Json.obj (os ++ [(k, v)])) =
      decodeOrganizationalUnit (Json.obj os) := by
  simp only [List.mem_cons, List.not_mem_nil, or_false, not_or] at h
  obtain ⟨n1, n2⟩ := h
  simp only [decodeOrganizationalUnit, reqF,
    getOnce_append_ne n1 v os, getOnce_append_ne n2 v os]

/-- C9: extra keys outside a type's field set are silently ignored —
adding such an entry to the input object changes neither success nor
any decoded attribute, shown for the envelope and for the shared value
type `OrganizationalUnit`. -/
theorem claim_C9_unknown_keys_ignored :
    (∀ (os : List (String × Json)) (k : String) (v : Json), k ∉ envelopeKeys →
      decodeEvent (Json.obj (os ++ [(k, v)])) = decodeEvent (Json.obj os)) ∧
    (∀ (os : List (String × Json)) (k : String) (v : Json),
      k ∉ ["organizationalUnitName", "organizationalUnitId"] →
      decodeOrganizationalUnit (Json.obj (os ++ [(k, v)])) =
        decodeOrganizationalUnit (Json.obj os)) :=
  ⟨decodeEvent_ignores_unknown, decodeOU_ignores_unknown⟩

/-- C9 witness: an extra unknown key appended to the sample event's
encoding decodes to the same result. -/
theorem claim_C9_witness :
    decodeEvent (Json.obj ((encodeEvent sampleEvent).entries ++
      [("futureExtraKey", Json.str "ignored")])) =
      decodeEvent (Json.obj (encodeEvent sampleEvent).entries) :=
  claim_C9_unknown_keys_ignored.1 (encodeEvent sampleEvent).entries
    "futureExtraKey" (Json.str "ignored") (by decide)

/-- An explicit `managementEvent: null` entry decodes the same as an absent
key. -/
theorem decodeEvent_null_managementEvent (os : List (String × Json))
    (h : "managementEvent" ∉ os.map Prod.fst) :
    decodeEvent (Json.obj (os ++ [("managementEvent", Json.null)])) = decodeEvent (Json.obj os) := by
  simp [decodeEvent, reqF, optF, decOptVal, bind, Except.bind,
    getOnce_append_self h Json.null, getOnce_not_mem h,
    getOnce_append_ne (show "managementEvent" ≠ "eventVersion" by decide) Json.null os,
    getOnce_append_ne (show "managementEvent" ≠ "userIdentity" by decide) Json.null os,
    getOnce_append_ne (show "managementEvent" ≠ "eventTime" by decide) Json.null os,
    getOnce_append_ne (show "managementEvent" ≠ "eventSource" by decide) Json.null os,
    getOnce_append_ne (show "managementEvent" ≠ "eventName" by decide) Json.null os,
    getOnce_append_ne (show "managementEvent" ≠ "awsRegion" by decide) Json.null os,
    getOnce_append_ne (show "managementEvent" ≠ "sourceIPAddress" by decide) Json.null os,
    getOnce_append_ne (show "managementEvent" ≠ "userAgent" by decide) Json.null os,
    getOnce_append_ne (show "managementEvent" ≠ "eventID" by decide) Json.null os,
    getOnce_append_ne (show "managementEvent" ≠ "readOnly" by decide) Json.null os,
    getOnce_append_ne (show "managementEvent" ≠ "eventType" by decide) Json.null os,
    getOnce_append_ne (show "managementEvent" ≠ "serviceEventDetails" by decide) Json.null os,
    getOnce_append_ne (show "managementEvent" ≠ "recipientAccountId" by decide) Json.null os,
    getOnce_append_ne (show "managementEvent" ≠ "requestParameters" by decide) Json.null os,
    getOnce_append_ne (show "managementEvent" ≠ "responseElements" by decide) Json.null os,
    getOnce_append_ne (show "managementEvent" ≠ "eventCategory" by decide) Json.null os]

/-- An explicit `recipientAccountId: null` entry decodes the same as an absent
key. -/
theorem decodeEvent_null_recipientAccountId (os : List (String × Json))
    (h : "recipientAccountId" ∉ os.map Prod.fst) :
    decodeEvent (Json.obj (os ++ [("recipientAccountId", Json.null)])) = decodeEvent (Json.obj os) := by
  simp [decodeEvent, reqF, optF, decOptVal, bind, Except.bind,
    getOnce_append_self h Json.null, getOnce_not_mem h,
    getOnce_append_ne (show "recipientAccountId" ≠ "eventVersion" by decide) Json.null os,
    getOnce_append_ne (show "recipientAccountId" ≠ "userIdentity" by decide) Json.null os,
    getOnce_append_ne (show "recipientAccountId" ≠ "eventTime" by decide) Json.null os,
    getOnce_append_ne (show "recipientAccountId" ≠ "eventSource" by decide) Json.null os,
    getOnce_append_ne (show "recipientAccountId" ≠ "eventName" by decide) Json.null os,
    getOnce_append_ne (show "recipientAccountId" ≠ "awsRegion" by decide) Json.null os,
    getOnce_append_ne (show "recipientAccountId" ≠ "sourceIPAddress" by decide) Json.null os,
    getOnce_append_ne (show "recipientAccountId" ≠ "userAgent" by decide) Json.null os,
    getOnce_append_ne (show "recipientAccountId" ≠ "eventID" by decide) Json.null os,
    getOnce_append_ne (show "recipientAccountId" ≠ "readOnly" by decide) Json.null os,
    getOnce_append_ne (show "recipientAccountId" ≠ "eventType" by decide) Json.null os,
    getOnce_append_ne (show "recipientAccountId" ≠ "serviceEventDetails" by decide) Json.null os,
    getOnce_append_ne (show "recipientAccountId" ≠ "managementEvent" by decide) Json.null os,
    getOnce_append_ne (show "recipientAccountId" ≠ "requestParameters" by decide) Json.null os,
    getOnce_append_ne (show "recipientAccountId" ≠ "responseElements" by decide) Json.null os,
    getOnce_append_ne (show "recipientAccountId" ≠ "eventCategory" by decide) Json.null os]

/-- An explicit `requestParameters: null` entry decodes the same as an absent
key. -/
theorem decodeEvent_null_requestParameters (os : List (String × Json))
    (h : "requestParameters" ∉ os.map Prod.fst) :
    decodeEvent (Json.obj (os ++ [("requestParameters", Json.null)])) = decodeEvent (Json.obj os) := by
  simp [decodeEvent, reqF, optF, decOptVal, bind, Except.bind,
    getOnce_append_self h Json.null, getOnce_not_mem h,
    getOnce_append_ne (show "requestParameters" ≠ "eventVersion" by decide) Json.null os,
    getOnce_append_ne (show "requestParameters" ≠ "userIdentity" by decide) Json.null os,
    getOnce_append_ne (show "requestParameters" ≠ "eventTime" by decide) Json.null os,
    getOnce_append_ne (show "requestParameters" ≠ "eventSource" by decide) Json.null os,
    getOnce_append_ne (show "requestParameters" ≠ "eventName" by decide) Json.null os,
    getOnce_append_ne (show "requestParameters" ≠ "awsRegion" by decide) Json.null os,
    getOnce_append_ne (show "requestParameters" ≠ "sourceIPAddress" by decide) Json.null os,
    getOnce_append_ne (show "requestParameters" ≠ "userAgent" by decide) Json.null os,
    getOnce_append_ne (show "requestParameters" ≠ "eventID" by decide) Json.null os,
    getOnce_append_ne (show "requestParameters" ≠ "readOnly" by decide) Json.null os,
    getOnce_append_ne (show "requestParameters" ≠ "eventType" by decide) Json.null os,
    getOnce_append_ne (show "requestParameters" ≠ "serviceEventDetails" by decide) Json.null os,
    getOnce_append_ne (show "requestParameters" ≠ "managementEvent" by decide) Json.null os,
    getOnce_append_ne (show "requestParameters" ≠ "recipientAccountId" by decide) Json.null os,
    getOnce_append_ne (show "requestParameters" ≠ "responseElements" by decide) Json.null os,
    getOnce_append_ne (show "requestParameters" ≠ "eventCategory" by decide) Json.null os]

/-- An explicit `responseElements: null` entry decodes the same as an absent
key. -/
theorem decodeEvent_null_responseElements (os : List (String × Json))
    (h : "responseElements" ∉ os.map Prod.fst) :
    decodeEvent (Json.obj (os ++ [("responseElements", Json.null)])) = decodeEvent (Json.obj os) := by
  simp [decodeEvent, reqF, optF, decOptVal, bind, Except.bind,
    getOnce_append_self h Json.null, getOnce_not_mem h,
    getOnce_append_ne (show "responseElements" ≠ "eventVersion" by decide) Json.null os,
    getOnce_append_ne (show "responseElements" ≠ "userIdentity" by decide) Json.null os,
    getOnce_append_ne (show "responseElements" ≠ "eventTime" by decide) Json.null os,
    getOnce_append_ne (show "responseElements" ≠ "eventSource" by decide) Json.null os,
    getOnce_append_ne (show "responseElements" ≠ "eventName" by decide) Json.null os,
    getOnce_append_ne (show "responseElements" ≠ "awsRegion" by decide) Json.null os,
    getOnce_append_ne (show "responseElements" ≠ "sourceIPAddress" by decide) Json.null os,
    getOnce_append_ne (show "responseElements" ≠ "userAgent" by decide) Json.null os,
    getOnce_append_ne (show "responseElements" ≠ "eventID" by decide) Json.null os,
    getOnce_append_ne (show "responseElements" ≠ "readOnly" by decide) Json.null os,
    getOnce_append_ne (show "responseElements" ≠ "eventType" by decide) Json.null os,
    getOnce_append_ne (show "responseElements" ≠ "serviceEventDetails" by decide) Json.null os,
    getOnce_append_ne (show "responseElements" ≠ "managementEvent" by decide) Json.null os,
    getOnce_append_ne (show "responseElements" ≠ "recipientAccountId" by decide) Json.null os,
    getOnce_append_ne (show "responseElements" ≠ "requestParameters" by decide) Json.null os,
    getOnce_append_ne (show "responseElements" ≠ "eventCategory" by decide) Json.null os]

/-- An explicit `eventCategory: null` entry decodes the same as an absent
key. -/
theorem decodeEvent_null_eventCategory (os : List (String × Json))
    (h : "eventCategory" ∉ os.map Prod.fst) :
    decodeEvent (Json.obj (os ++ [("eventCategory", Json.null)])) = decodeEvent (Json.obj os) := by
  simp [decodeEvent, reqF, optF, decOptVal, bind, Except.bind,
    getOnce_append_self h Json.null, getOnce_not_mem h,
    getOnce_append_ne (show "eventCategory" ≠ "eventVersion" by decide) Json.null os,
    getOnce_append_ne (show "eventCategory" ≠ "userIdentity" by decide) Json.null os,
    getOnce_append_ne (show "eventCategory" ≠ "eventTime" by decide) Json.null os,
    getOnce_append_ne (show "eventCategory" ≠ "eventSource" by decide) Json.null os,
    getOnce_append_ne (show "eventCategory" ≠ "eventName" by decide) Json.null os,
    getOnce_append_ne (show "eventCategory" ≠ "awsRegion" by decide) Json.null os,
    getOnce_append_ne (show "eventCategory" ≠ "sourceIPAddress" by decide) Json.null os,
    getOnce_append_ne (show "eventCategory" ≠ "userAgent" by decide) Json.null os,
    getOnce_append_ne (show "eventCategory" ≠ "eventID" by decide) Json.null os,
    getOnce_append_ne (show "eventCategory" ≠ "readOnly" by decide) Json.null os,
    getOnce_append_ne (show "eventCategory" ≠ "eventType" by decide) Json.null os,
    getOnce_append_ne (show "eventCategory" ≠ "serviceEventDetails" by decide) Json.null os,
    getOnce_append_ne (show "eventCategory" ≠ "managementEvent" by decide) Json.null os,
    getOnce_append_ne (show "eventCategory" ≠ "recipientAccountId" by decide) Json.null os,
    getOnce_append_ne (show "eventCategory" ≠ "requestParameters" by decide) Json.null os,
    getOnce_append_ne (show "eventCategory" ≠ "responseElements" by decide) Json.null os]

/-- An explicit `baselineDetails: null` entry decodes the same as an
absent key in a `BaselineStatus` payload. -/
theorem decodeBS_null_baselineDetails (os : List (String × Json))
    (h : "baselineDetails" ∉ os.map Prod.fst) :
    decodeBaselineStatus (Json.obj (os ++ [("baselineDetails", Json.null)])) =
      decodeBaselineStatus (Json.obj os) := by
  simp [decodeBaselineStatus, reqF, optF, decOptVal, bind, Except.bind,
    getOnce_append_self h Json.null, getOnce_not_mem h,
    getOnce_append_ne (show "baselineDetails" ≠ "enabledBaselineDetails" by decide) Json.null os,
    getOnce_append_ne (show "baselineDetails" ≠ "requestedTimestamp" by decide) Json.null os,
    getOnce_append_ne (show "baselineDetails" ≠ "completedTimestamp" by decide) Json.null os]

/-- C10: for every optional envelope attribute and for
`BaselineStatus.baseline_details`, an input carrying the key with an
explicit JSON null decodes exactly like an input lacking the key — the
decoder does not distinguish explicit null from absence. -/
theorem claim_C10_null_is_absent :
    (∀ os : List (String × Json), "managementEvent" ∉ os.map Prod.fst →
      decodeEvent (Json.obj (os ++ [("managementEvent", Json.null)])) = decodeEvent (Json.obj os)) ∧
    (∀ os : List (String × Json), "recipientAccountId" ∉ os.map Prod.fst →
      decodeEvent (Json.obj (os ++ [("recipientAccountId", Json.null)])) = decodeEvent (Json.obj os)) ∧
    (∀ os : List (String × Json), "requestParameters" ∉ os.map Prod.fst →
      decodeEvent (Json.obj (os ++ [("requestParameters", Json.null)])) = decodeEvent (Json.obj os)) ∧
    (∀ os : List (String × Json), "responseElements" ∉ os.map Prod.fst →
      decodeEvent (Json.obj (os ++ [("responseElements", Json.null)])) = decodeEvent (Json.obj os)) ∧
    (∀ os : List (String × Json), "eventCategory" ∉ os.map Prod.fst →
      decodeEvent (Json.obj (os ++ [("eventCategory", Json.null)])) = decodeEvent (Json.obj os)) ∧
    (∀ os : List (String × Json), "baselineDetails" ∉ os.map Prod.fst →
      decodeBaselineStatus (Json.obj (os ++ [("baselineDetails", Json.null)])) =
        decodeBaselineStatus (Json.obj os)) :=
  ⟨decodeEvent_null_managementEvent, decodeEvent_null_recipientAccountId,
   decodeEvent_null_requestParameters, decodeEvent_null_responseElements,
   decodeEvent_null_eventCategory, decodeBS_null_baselineDetails⟩

/-- C10 witness: an explicit `managementEvent: null` appended to the
required-only sample entries decodes the same as leaving it out. -/
theorem claim_C10_witness :
    decodeEvent (Json.obj (coreEntries ++ [("managementEvent", Json.null)])) =
      decodeEvent (Json.obj coreEntries) :=
  claim_C10_null_is_absent.1 coreEntries (by decide)

end ControlTower
